import Mathlib

/-!
Shallow embedding of the configurable RAG framework (rag_system package):
config.py, components.py, retriever.py, chain.py, orchestrator.py.
Filesystem existence, document loading, text splitting, embedding, LLM and
reranker service calls are opaque effects; they are modelled as explicit
state (a list of existing paths) and oracle functions carried in an
environment record, so every definition is executable on concrete inputs.
-/

/-- Document: LangChain document representation, `page_content` plus the
`source` metadata entry used by this repository. -/
structure Document where
  page_content : String
  source : String
deriving Repr, DecidableEq

/-- Chat message roles used by the chat prompt and the session history. -/
inductive ChatMessage where
  | system (content : String)
  | human (content : String)
  | ai (content : String)
deriving Repr, DecidableEq

/-! ## Configuration model (config.py) -/

/-- DocumentLoaderConfig: `path: Optional[str]`, `urls: List[str]`. -/
structure DocumentLoaderConfig where
  path : Option String
  urls : List String
deriving Repr, DecidableEq

/-- RecursiveSplitterConfig: fixed-size splitting parameters. -/
structure RecursiveSplitterConfig where
  chunk_size : Nat
  chunk_overlap : Nat
deriving Repr, DecidableEq

/-- Literal type of `breakpoint_threshold_type` in SemanticSplitterConfig. -/
inductive BreakpointThresholdType where
  | percentile
  | standard_deviation
  | interquartile
deriving Repr, DecidableEq

/-- SemanticSplitterConfig: semantic splitting parameters. -/
structure SemanticSplitterConfig where
  breakpoint_threshold_type : BreakpointThresholdType
  breakpoint_threshold_amount : Int
deriving Repr, DecidableEq

/-- Literal type of `splitter_type` in TextSplitterConfig. -/
inductive SplitterType where
  | semantic
  | recursive
deriving Repr, DecidableEq

/-- TextSplitterConfig: selects the splitting strategy. -/
structure TextSplitterConfig where
  splitter_type : SplitterType
  recursive : RecursiveSplitterConfig
  semantic : SemanticSplitterConfig
deriving Repr, DecidableEq

/-- Literal type of the embeddings `provider` field (closed enumeration,
enforced by Pydantic validation before any component is constructed). -/
inductive EmbeddingProvider where
  | google
  | huggingface
deriving Repr, DecidableEq

/-- EmbeddingConfig: provider plus model name. -/
structure EmbeddingConfig where
  provider : EmbeddingProvider
  model_name : String
deriving Repr, DecidableEq

/-- VectorStoreConfig: the persisted-index path. -/
structure VectorStoreConfig where
  path : String
deriving Repr, DecidableEq

/-- RetrieverConfig: hybrid-search flag and fusion weights.  The weights are
carried opaquely (no arithmetic is performed on them in this repository);
they are represented as rationals. -/
structure RetrieverConfig where
  enable_hybrid_search : Bool
  hybrid_search_weights : List Rat
deriving Repr, DecidableEq

/-- Literal type of the reranker `provider` field (only "cohere"). -/
inductive RerankerProvider where
  | cohere
deriving Repr, DecidableEq

/-- RerankerConfig: enable flag, provider, truncation size. -/
structure RerankerConfig where
  enable : Bool
  provider : RerankerProvider
  top_n : Nat
deriving Repr, DecidableEq

/-- MemoryConfig: conversation-memory enable flag. -/
structure MemoryConfig where
  enable : Bool
deriving Repr, DecidableEq

/-- LLMConfig: model name and sampling temperature (carried opaquely). -/
structure LLMConfig where
  model_name : String
  temperature : Rat
deriving Repr, DecidableEq

/-- PromptConfig: template file paths for the two chain modes. -/
structure PromptConfig where
  template_path : String
  chat_template_path : String
deriving Repr, DecidableEq

/-- AppConfig: the validated top-level configuration object. -/
structure AppConfig where
  document_loader : DocumentLoaderConfig
  text_splitter : TextSplitterConfig
  embeddings : EmbeddingConfig
  vector_store : VectorStoreConfig
  retriever : RetrieverConfig
  reranker : RerankerConfig
  memory : MemoryConfig
  llm : LLMConfig
  prompt : PromptConfig
deriving Repr, DecidableEq

/-! ## Component instances (components.py constructs these) -/

/-- Embedding model instance: `GoogleGenerativeAIEmbeddings(model=...)` or
`HuggingFaceEmbeddings(model_name=...)`. -/
inductive Embeddings where
  | google (model : String)
  | huggingface (model_name : String)
deriving Repr, DecidableEq

/-- Text splitter instance: `SemanticChunker` or
`RecursiveCharacterTextSplitter`. -/
inductive TextSplitter where
  | semanticChunker (embeddings : Embeddings)
      (breakpoint_threshold_type : BreakpointThresholdType)
      (breakpoint_threshold_amount : Int)
  | recursiveCharacter (chunk_size : Nat) (chunk_overlap : Nat)
deriving Repr, DecidableEq

/-- Reranker instance: `CohereRerank(top_n=...)`. -/
inductive Reranker where
  | cohereRerank (top_n : Nat)
deriving Repr, DecidableEq

/-- LLM instance: `ChatGoogleGenerativeAI(model=..., temperature=...)`. -/
inductive LLM where
  | chatGoogleGenerativeAI (model : String) (temperature : Rat)
deriving Repr, DecidableEq

/-- Vector store value: either freshly built by `FAISS.from_documents`
(recording the chunks it was built from and the embedding model), or loaded
from disk by `FAISS.load_local`. -/
inductive VectorStore where
  | fromDocuments (texts : List Document) (embeddings : Embeddings)
  | loadedLocal (path : String) (embeddings : Embeddings)
deriving Repr, DecidableEq

/-- Retriever value, mirroring the object graph `build_retriever` returns:
a plain vector retriever (`vectorstore.as_retriever()`), a BM25 keyword
retriever, an `EnsembleRetriever` fusion, or a
`ContextualCompressionRetriever` wrapping a base retriever with a reranker. -/
inductive Retriever where
  | vector (store : VectorStore)
  | bm25 (texts : List Document)
  | ensemble (retrievers : List Retriever) (weights : List Rat)
  | compression (base_compressor : Reranker) (base : Retriever)

/-- Discriminator: is the retriever an `EnsembleRetriever`? -/
def Retriever.isEnsemble : Retriever → Bool
  | .ensemble _ _ => true
  | _ => false

/-- Discriminator: is the retriever a plain vector retriever? -/
def Retriever.isVector : Retriever → Bool
  | .vector _ => true
  | _ => false

/-- Discriminator: is the retriever a `ContextualCompressionRetriever`? -/
def Retriever.isCompression : Retriever → Bool
  | .compression _ _ => true
  | _ => false

/-! ## Errors

The spec's error taxonomy names the failures this code raises (the Python
code raises `ValueError` / `RuntimeError` at these sites; the spec assigns
them the names used here). -/

/-- Error taxonomy of the specification. -/
inductive RagError where
  | NoDocumentsFoundError
  | MissingCredentialError
  | MissingDependencyError
  | NotInitializedError
  | UnsupportedProviderError
  | PipelineExecutionError
deriving Repr, DecidableEq

/-! ## Environment: filesystem state and opaque-effect oracles -/

/-- The filesystem is modelled as the list of existing paths; only the
vector-store path is ever queried. -/
abbrev FS := List String

/-- Membership test standing for `os.path.exists`. -/
def os_path_exists (fs : FS) (p : String) : Bool :=
  fs.contains p

/-- Deletion standing for `shutil.rmtree`. -/
def rmtree (p : String) (fs : FS) : FS :=
  fs.filter (fun q => q != p)

/-- Persisting standing for `vectorstore.save_local(vs_path)`: the path now
exists. -/
def save_local (p : String) (fs : FS) : FS :=
  p :: fs

/-- Python truthiness of an optional string (`None` and `""` are falsy). -/
def pyTruthy : Option String → Bool
  | none => false
  | some s => s != ""

/-- Setup-time environment: oracles for the document loaders, the text
splitter, the process environment variable, and file reading. -/
structure Env where
  localDocs : String → List Document
  webDocs : List String → List Document
  splitDocs : TextSplitter → List Document → List Document
  cohere_api_key : Option String
  readFile : String → String

/-! ## Document loading (retriever.py: load_documents) -/

/-- Documents produced by `load_documents` before the emptiness check: the
local directory part (attempted only when `doc_config.path` is truthy and
`os.path.exists(doc_config.path)`), followed by the web part (attempted
only when `doc_config.urls` is non-empty). -/
def loadedDocuments (config : AppConfig) (env : Env) (fs : FS) : List Document :=
  let dc := config.document_loader
  let localPart : List Document :=
    match dc.path with
    | some p => if p != "" && os_path_exists fs p then env.localDocs p else []
    | none => []
  let webPart : List Document :=
    if dc.urls.isEmpty then [] else env.webDocs dc.urls
  localPart ++ webPart

/-- load_documents: gathers local and web documents and raises
NoDocumentsFoundError when none were produced. -/
def load_documents (config : AppConfig) (env : Env) (fs : FS) :
    Except RagError (List Document) :=
  let documents := loadedDocuments config env fs
  if documents.isEmpty then Except.error RagError.NoDocumentsFoundError
  else Except.ok documents

/-! ## Component factory (components.py: ComponentFactory) -/

/-- create_llm: builds the chat model from the llm config section. -/
def create_llm (config : AppConfig) : LLM :=
  LLM.chatGoogleGenerativeAI config.llm.model_name config.llm.temperature

/-- create_embeddings: dispatches on the provider name.  The provider field
is a closed enumeration (validated before construction), so the
unsupported-provider branch of the Python code is unreachable here; the
huggingface case passes the model name under its own keyword, mirrored by
the distinct constructor. -/
def create_embeddings (config : AppConfig) : Embeddings :=
  match config.embeddings.provider with
  | EmbeddingProvider.google => Embeddings.google config.embeddings.model_name
  | EmbeddingProvider.huggingface =>
      Embeddings.huggingface config.embeddings.model_name

/-- create_text_splitter: the semantic strategy requires an embeddings
instance and raises MissingDependencyError without one; the recursive
strategy never needs it. -/
def create_text_splitter (config : AppConfig) (embeddings : Option Embeddings) :
    Except RagError TextSplitter :=
  let sc := config.text_splitter
  match sc.splitter_type with
  | SplitterType.semantic =>
    match embeddings with
    | none => Except.error RagError.MissingDependencyError
    | some e =>
        Except.ok (TextSplitter.semanticChunker e
          sc.semantic.breakpoint_threshold_type
          sc.semantic.breakpoint_threshold_amount)
  | SplitterType.recursive =>
      Except.ok (TextSplitter.recursiveCharacter
        sc.recursive.chunk_size sc.recursive.chunk_overlap)

/-- create_reranker: returns none when disabled; raises
MissingCredentialError when enabled but `COHERE_API_KEY` is not truthy in
the environment; otherwise builds the Cohere reranker (the provider
enumeration admits only "cohere"). -/
def create_reranker (config : AppConfig) (env : Env) :
    Except RagError (Option Reranker) :=
  let rc := config.reranker
  if !rc.enable then Except.ok none
  else if !(pyTruthy env.cohere_api_key) then
    Except.error RagError.MissingCredentialError
  else
    match rc.provider with
    | RerankerProvider.cohere =>
        Except.ok (some (Reranker.cohereRerank rc.top_n))

/-! ## Retriever construction (retriever.py: build_retriever) -/

/-- Observable effects of `build_retriever`, in execution order. -/
inductive Event where
  | rmtreeEvt (path : String)
  | loadDocumentsEvt
  | splitDocumentsEvt
  | buildIndexEvt
  | saveLocalEvt (path : String)
  | loadLocalEvt (path : String)
deriving Repr, DecidableEq

/-- Final reranker application of `build_retriever`: when a reranker is
present the base retriever is wrapped in a
`ContextualCompressionRetriever`, otherwise it is returned unchanged. -/
def apply_reranker : Option Reranker → Retriever → Retriever
  | some r, base => Retriever.compression r base
  | none, base => base

/-- build_retriever: deletes the persisted store when `force_recreate` is
set and it exists; then builds a fresh index (load, split, embed, build,
persist, with optional hybrid fusion) when the path does not exist, or
loads the persisted index directly otherwise; finally applies the optional
reranker.  Returns the retriever, the updated filesystem, and the ordered
effect trace. -/
def build_retriever (config : AppConfig) (embeddings : Embeddings)
    (text_splitter : TextSplitter) (reranker : Option Reranker)
    (force_recreate : Bool) (env : Env) (fs : FS) :
    Except RagError (Retriever × FS × List Event) :=
  let vs_path := config.vector_store.path
  let deleted := force_recreate && os_path_exists fs vs_path
  let fs1 := if deleted then rmtree vs_path fs else fs
  let ev1 := if deleted then [Event.rmtreeEvt vs_path] else []
  if !(os_path_exists fs1 vs_path) then
    match load_documents config env fs1 with
    | Except.error e => Except.error e
    | Except.ok docs =>
      let texts := env.splitDocs text_splitter docs
      let vectorstore := VectorStore.fromDocuments texts embeddings
      let fs2 := save_local vs_path fs1
      let faiss_retriever := Retriever.vector vectorstore
      let base_retriever :=
        if config.retriever.enable_hybrid_search then
          Retriever.ensemble [faiss_retriever, Retriever.bm25 texts]
            config.retriever.hybrid_search_weights
        else faiss_retriever
      Except.ok (apply_reranker reranker base_retriever, fs2,
        ev1 ++ [Event.loadDocumentsEvt, Event.splitDocumentsEvt,
          Event.buildIndexEvt, Event.saveLocalEvt vs_path])
  else
    let vectorstore := VectorStore.loadedLocal vs_path embeddings
    let base_retriever := Retriever.vector vectorstore
    Except.ok (apply_reranker reranker base_retriever, fs1,
      ev1 ++ [Event.loadLocalEvt vs_path])

/-! ## Conversation store and chains (chain.py) -/

/-- The process-wide conversation store `store`: mapping from session id to
its ordered message history (an association list in creation order). -/
abbrev Store := List (String × List ChatMessage)

/-- Lookup of a session id in the store. -/
def store_lookup (store : Store) (sid : String) : Option (List ChatMessage) :=
  match store with
  | [] => none
  | (k, h) :: rest => if k == sid then some h else store_lookup rest sid

/-- Replace the history stored under an existing session id. -/
def store_update (store : Store) (sid : String) (h : List ChatMessage) : Store :=
  store.map (fun e => if e.1 == sid then (sid, h) else e)

/-- get_session_history: returns the store (creating an empty history entry
on first reference to the session id) together with the history object the
entry holds. -/
def get_session_history (store : Store) (session_id : String) :
    Store × List ChatMessage :=
  match store_lookup store session_id with
  | some h => (store, h)
  | none => (store ++ [(session_id, [])], [])

/-- Observable history of a session id: the stored messages, or the empty
history when no entry exists yet. -/
def histOf (store : Store) (sid : String) : List ChatMessage :=
  (store_lookup store sid).getD []

/-- format_docs: joins the retrieved documents' texts into the single
context string handed to the prompt. -/
def format_docs (docs : List Document) : String :=
  String.intercalate "\n\n" (docs.map Document.page_content)

/-- Runtime oracles for the opaque services the chains call: running a
retriever on a query string, invoking the LLM on a rendered message list,
and the prompt-template substitution performed by the prompt classes
(template and context, plus the question for the single-message template). -/
structure Oracles where
  runRetriever : Retriever → String → Except String (List Document)
  llm : LLM → List ChatMessage → Except String String
  fillTemplate : String → String → String → String
  fillSystem : String → String → String

/-- Input dictionary of the inner conversational chain: the question plus
the `chat_history` injected by the history wrapper. -/
structure ChainInput where
  question : String
  chat_history : List ChatMessage
deriving Repr, DecidableEq

/-- Output dictionary of a chain run, keeping the keys `ask` reads:
the question, the retrieved `source_documents`, the formatted `context`,
and the parsed `output` string. -/
structure ChainOutput where
  question : String
  source_documents : List Document
  context : String
  output : String
deriving Repr, DecidableEq

/-- Retrieval step of the conversational chain, exactly the code's
assignment of `source_documents`: the retriever is invoked on the input's
`question` field and on nothing else. -/
def conversational_retrieve (o : Oracles) (retriever : Retriever)
    (x : ChainInput) : Except String (List Document) :=
  o.runRetriever retriever x.question

/-- One run of the inner conversational chain: retrieve on the raw
question, format the context, render the chat prompt (system template with
the context substituted, then the full prior history in order, then the
question as the final human turn), invoke the LLM, parse to a string. -/
def conversational_chain_invoke (o : Oracles) (llm : LLM)
    (retriever : Retriever) (chat_template : String) (x : ChainInput) :
    Except String ChainOutput :=
  match conversational_retrieve o retriever x with
  | Except.error e => Except.error e
  | Except.ok docs =>
    let ctx := format_docs docs
    let messages := ChatMessage.system (o.fillSystem chat_template ctx)
      :: (x.chat_history ++ [ChatMessage.human x.question])
    match o.llm llm messages with
    | Except.error e => Except.error e
    | Except.ok ans => Except.ok ⟨x.question, docs, ctx, ans⟩

/-- Modelled from the spec: the history wrapper around the conversational
chain (the `RunnableWithMessageHistory` composition of chain.py is library
code not present in src/).  Per the spec's conversational pipeline, the
Session History for the session id is looked up (or created empty), the
inner chain runs with that history injected, and only after a successful
turn are the user question and the generated answer appended; a failed
turn commits no history update. -/
def with_message_history_invoke (o : Oracles) (llm : LLM)
    (retriever : Retriever) (chat_template : String) (store : Store)
    (session_id : String) (question : String) :
    Store × Except String ChainOutput :=
  let (store1, history) := get_session_history store session_id
  match conversational_chain_invoke o llm retriever chat_template
      ⟨question, history⟩ with
  | Except.error e => (store1, Except.error e)
  | Except.ok out =>
      (store_update store1 session_id
        (history ++ [ChatMessage.human question, ChatMessage.ai out.output]),
       Except.ok out)

/-- One run of the standard (stateless) chain: retrieve, format the
context, render the single-message prompt from the template with context
and question, invoke the LLM, parse to a string.  No session store is
touched. -/
def standard_chain_invoke (o : Oracles) (llm : LLM) (retriever : Retriever)
    (template : String) (question : String) : Except String ChainOutput :=
  match o.runRetriever retriever question with
  | Except.error e => Except.error e
  | Except.ok docs =>
    let ctx := format_docs docs
    match o.llm llm [ChatMessage.human (o.fillTemplate template ctx question)] with
    | Except.error e => Except.error e
    | Except.ok ans => Except.ok ⟨question, docs, ctx, ans⟩

/-- A built RAG chain: the stateless chain (template read from
`prompt.template_path`) or the conversational chain (template read from
`prompt.chat_template_path`), each closing over the LLM and retriever. -/
inductive RagChain where
  | standard (llm : LLM) (template : String) (retriever : Retriever)
  | conversational (llm : LLM) (chat_template : String) (retriever : Retriever)

/-- build_rag_chain: selects the chain kind on `config.memory.enable` and
reads the corresponding prompt template file. -/
def build_rag_chain (llm : LLM) (retriever : Retriever) (config : AppConfig)
    (env : Env) : RagChain :=
  if config.memory.enable then
    RagChain.conversational llm (env.readFile config.prompt.chat_template_path)
      retriever
  else
    RagChain.standard llm (env.readFile config.prompt.template_path) retriever

/-! ## Orchestrator (orchestrator.py: RAGOrchestrator) -/

/-- RAGOrchestrator state: the validated config and the chain, which is
`none` until `setup()` completes. -/
structure RAGOrchestrator where
  config : AppConfig
  rag_chain : Option RagChain

/-- setup: builds embeddings, the LLM, the text splitter (handing it the
embeddings instance), the optional reranker, the retriever, and finally the
RAG chain; any factory or retriever failure aborts setup. -/
def RAGOrchestrator.setup (self : RAGOrchestrator) (env : Env) (fs : FS)
    (force_recreate : Bool) : Except RagError (RAGOrchestrator × FS) :=
  let embeddings := create_embeddings self.config
  let llm := create_llm self.config
  match create_text_splitter self.config (some embeddings) with
  | Except.error e => Except.error e
  | Except.ok text_splitter =>
    match create_reranker self.config env with
    | Except.error e => Except.error e
    | Except.ok reranker =>
      match build_retriever self.config embeddings text_splitter reranker
          force_recreate env fs with
      | Except.error e => Except.error e
      | Except.ok (retriever, fs1, _) =>
          Except.ok
            ({ self with
                rag_chain := some (build_rag_chain llm retriever self.config env) },
             fs1)

/-- ask: raises NotInitializedError when the chain was never set up;
otherwise invokes the chain, threading the session id through the history
wrapper exactly when conversation memory is enabled, and returns the
`output` and `source_documents` fields together with the resulting store.
A chain whose kind contradicts `memory.enable` cannot arise from `setup`;
invoking the conversational chain without a session id is the library
failure modelled as PipelineExecutionError, and any chain-internal failure
also surfaces as PipelineExecutionError per the spec's taxonomy. -/
def RAGOrchestrator.ask (self : RAGOrchestrator) (o : Oracles) (store : Store)
    (question : String) (session_id : String) :
    Except RagError (String × List Document × Store) :=
  match self.rag_chain with
  | none => Except.error RagError.NotInitializedError
  | some chain =>
    if self.config.memory.enable then
      match chain with
      | RagChain.conversational llm tmpl retr =>
        match with_message_history_invoke o llm retr tmpl store session_id
            question with
        | (store1, Except.ok out) =>
            Except.ok (out.output, out.source_documents, store1)
        | (_, Except.error _) => Except.error RagError.PipelineExecutionError
      | RagChain.standard llm tmpl retr =>
        match standard_chain_invoke o llm retr tmpl question with
        | Except.ok out => Except.ok (out.output, out.source_documents, store)
        | Except.error _ => Except.error RagError.PipelineExecutionError
    else
      match chain with
      | RagChain.standard llm tmpl retr =>
        match standard_chain_invoke o llm retr tmpl question with
        | Except.ok out => Except.ok (out.output, out.source_documents, store)
        | Except.error _ => Except.error RagError.PipelineExecutionError
      | RagChain.conversational _ _ _ =>
          Except.error RagError.PipelineExecutionError

/-! ## Concrete fixtures used by the witnesses -/

/-- A sample loaded document. -/
def docA : Document := ⟨"alpha text", "docs/a.txt"⟩

/-- A second sample loaded document. -/
def docB : Document := ⟨"beta text", "docs/b.txt"⟩

/-- A sample configuration: recursive splitter, hybrid search off, reranker
off, memory off. -/
def cfgW : AppConfig :=
  ⟨⟨some "docs", []⟩,
   ⟨SplitterType.recursive, ⟨500, 50⟩, ⟨BreakpointThresholdType.percentile, 95⟩⟩,
   ⟨EmbeddingProvider.google, "embedding-001"⟩,
   ⟨"vectorstore"⟩,
   ⟨false, [1, 0]⟩,
   ⟨false, RerankerProvider.cohere, 3⟩,
   ⟨false⟩,
   ⟨"gemini-pro", 0⟩,
   ⟨"prompts/rag.txt", "prompts/chat.txt"⟩⟩

/-- The sample configuration with hybrid search enabled. -/
def cfgHybrid : AppConfig :=
  { cfgW with retriever := ⟨true, [1, 0]⟩ }

/-- The sample configuration with the semantic splitter selected. -/
def cfgSem : AppConfig :=
  { cfgW with text_splitter :=
      ⟨SplitterType.semantic, ⟨500, 50⟩, ⟨BreakpointThresholdType.percentile, 95⟩⟩ }

/-- A sample environment: the docs directory holds two documents, the web
loader returns nothing, splitting is the identity, no Cohere key. -/
def envW : Env :=
  ⟨fun _ => [docA, docB], fun _ => [], fun _ ds => ds, none, fun _ => "TEMPLATE"⟩

/-- A sample embeddings instance. -/
def embW : Embeddings := Embeddings.google "embedding-001"

/-- A sample text splitter instance. -/
def tsW : TextSplitter := TextSplitter.recursiveCharacter 500 50

/-- A sample LLM instance. -/
def llmW : LLM := LLM.chatGoogleGenerativeAI "gemini-pro" 0

/-- A sample retriever instance. -/
def retrW : Retriever := Retriever.vector (VectorStore.loadedLocal "vectorstore" embW)

/-- Sample runtime oracles whose services always succeed. -/
def oW : Oracles :=
  ⟨fun _ _ => Except.ok [docA], fun _ _ => Except.ok "answer",
   fun t c q => t ++ c ++ q, fun t c => t ++ c⟩

/-- Sample runtime oracles whose retriever always fails. -/
def oFail : Oracles :=
  ⟨fun _ _ => Except.error "retriever down", fun _ _ => Except.ok "answer",
   fun t c q => t ++ c ++ q, fun t c => t ++ c⟩

/-! ## Helper lemmas -/

/-- Accumulator lemma for the worker of `String.intercalate`. -/
theorem intercalate_go_append (s : String) (as : List String) :
    ∀ acc b : String,
      String.intercalate.go (acc ++ b) s as = acc ++ String.intercalate.go b s as := by
  induction as with
  | nil => intro acc b; rfl
  | cons a as ih =>
      intro acc b
      show String.intercalate.go (acc ++ b ++ s ++ a) s as
        = acc ++ String.intercalate.go (b ++ s ++ a) s as
      rw [show acc ++ b ++ s ++ a = acc ++ (b ++ s ++ a) by
        simp [String.append_assoc]]
      exact ih acc (b ++ s ++ a)

/-- Unfolding of `String.intercalate` on a list with at least two entries. -/
theorem intercalate_cons_cons (s a b : String) (l : List String) :
    String.intercalate s (a :: b :: l) = a ++ s ++ String.intercalate s (b :: l) := by
  show String.intercalate.go a s (b :: l) = a ++ s ++ String.intercalate.go b s l
  show String.intercalate.go (a ++ s ++ b) s l = a ++ s ++ String.intercalate.go b s l
  exact intercalate_go_append s l (a ++ s) b

/-- Specification wording for the context string: the chunk texts joined in
retrieval order with a double newline between neighbours; the empty
retrieval gives the empty string. -/
def context_concat_spec : List Document → String
  | [] => ""
  | [d] => d.page_content
  | d :: e :: rest => d.page_content ++ "\n\n" ++ context_concat_spec (e :: rest)

/-- C9: for every list of retrieved documents, the context string passed to
the prompt equals the concatenation of the documents' chunk texts separated
by double newlines in the original retrieval order, and an empty retrieval
yields the empty string. -/
theorem C9_format_docs_concatenation :
    (∀ docs : List Document, format_docs docs = context_concat_spec docs)
    ∧ format_docs [] = "" := by
  refine ⟨?_, rfl⟩
  intro docs
  induction docs with
  | nil => rfl
  | cons d rest ih =>
      cases rest with
      | nil => rfl
      | cons e rest2 =>
          show String.intercalate "\n\n"
              (d.page_content :: e.page_content :: rest2.map Document.page_content)
            = d.page_content ++ "\n\n" ++ context_concat_spec (e :: rest2)
          rw [intercalate_cons_cons, ← ih]
          rfl

/-- C8: creating a text splitter with splitter_type "semantic" and no
embeddings raises MissingDependencyError; with embeddings supplied it
returns the semantic splitter; with splitter_type "recursive" it returns
the fixed-size splitter whether or not embeddings are supplied. -/
theorem C8_text_splitter_dependency (config : AppConfig) :
    (config.text_splitter.splitter_type = SplitterType.semantic →
      create_text_splitter config none
        = Except.error RagError.MissingDependencyError)
    ∧ (∀ e : Embeddings,
        config.text_splitter.splitter_type = SplitterType.semantic →
        create_text_splitter config (some e)
          = Except.ok (TextSplitter.semanticChunker e
              config.text_splitter.semantic.breakpoint_threshold_type
              config.text_splitter.semantic.breakpoint_threshold_amount))
    ∧ (∀ eo : Option Embeddings,
        config.text_splitter.splitter_type = SplitterType.recursive →
        create_text_splitter config eo
          = Except.ok (TextSplitter.recursiveCharacter
              config.text_splitter.recursive.chunk_size
              config.text_splitter.recursive.chunk_overlap)) := by
  refine ⟨fun h => ?_, fun e h => ?_, fun eo h => ?_⟩ <;>
    simp [create_text_splitter, h]

/-- Witness for C8 at concrete configurations. -/
theorem C8_text_splitter_dependency_witness :
    create_text_splitter cfgSem none = Except.error RagError.MissingDependencyError
    ∧ create_text_splitter cfgW (some embW)
        = Except.ok (TextSplitter.recursiveCharacter 500 50) :=
  ⟨(C8_text_splitter_dependency cfgSem).1 rfl,
   (C8_text_splitter_dependency cfgW).2.2 (some embW) rfl⟩

/-- C5: load_documents fails with NoDocumentsFoundError exactly when, after
attempting the local path (if configured and existing) and the URL list (if
configured), zero documents were produced; otherwise it returns the
non-empty produced sequence. -/
theorem C5_no_documents_found (config : AppConfig) (env : Env) (fs : FS) :
    (load_documents config env fs = Except.error RagError.NoDocumentsFoundError
      ↔ loadedDocuments config env fs = [])
    ∧ (∀ docs, load_documents config env fs = Except.ok docs →
        docs = loadedDocuments config env fs ∧ docs ≠ []) := by
  constructor
  · unfold load_documents
    by_cases h : loadedDocuments config env fs = [] <;>
      simp [h]
  · intro docs hd
    unfold load_documents at hd
    by_cases h : loadedDocuments config env fs = []
    · rw [if_pos (by simp [h])] at hd
      exact absurd hd (by simp)
    · rw [if_neg (by simp [h])] at hd
      cases hd
      exact ⟨rfl, h⟩

/-- Witness for C5: the sample environment produces two documents. -/
theorem C5_no_documents_found_witness :
    ([docA, docB] : List Document) = loadedDocuments cfgW envW ["docs"]
    ∧ ([docA, docB] : List Document) ≠ [] :=
  (C5_no_documents_found cfgW envW ["docs"]).2 [docA, docB] rfl

/-- C6: reranker construction raises MissingCredentialError exactly when
reranking is enabled and COHERE_API_KEY is absent from the environment;
when disabled it returns no reranker, and a retriever built without a
reranker is never the compression wrapper - it is exactly the vector or
ensemble base retriever. -/
theorem C6_reranker_credential (config : AppConfig) (env : Env) :
    (create_reranker config env = Except.error RagError.MissingCredentialError
      ↔ config.reranker.enable = true ∧ pyTruthy env.cohere_api_key = false)
    ∧ (config.reranker.enable = false →
        create_reranker config env = Except.ok none)
    ∧ (∀ (emb : Embeddings) (ts : TextSplitter) (force : Bool) (fs : FS)
        (r : Retriever) (fs1 : FS) (evs : List Event),
        build_retriever config emb ts none force env fs
          = Except.ok (r, fs1, evs) →
        r.isCompression = false ∧ (r.isVector || r.isEnsemble) = true) := by
  refine ⟨?_, ?_, ?_⟩
  · cases he : config.reranker.enable <;>
      cases hk : pyTruthy env.cohere_api_key <;>
      cases hp : config.reranker.provider <;>
      simp [create_reranker, he, hk, hp]
  · intro h
    simp [create_reranker, h]
  · intro emb ts force fs r fs1 evs h
    simp only [build_retriever] at h
    repeat' split at h
    all_goals
      first
      | · simp only [Except.ok.injEq, Prod.mk.injEq] at h
          obtain ⟨hr, -, -⟩ := h
          rw [← hr]
          simp [apply_reranker, Retriever.isCompression, Retriever.isVector,
            Retriever.isEnsemble]
      | exact absurd h (by simp)

/-- Witness for C6: reranking disabled in the sample configuration, and a
concrete retriever built without a reranker. -/
theorem C6_reranker_credential_witness :
    create_reranker cfgW envW = Except.ok none
    ∧ (retrW.isCompression = false ∧ (retrW.isVector || retrW.isEnsemble) = true) :=
  ⟨(C6_reranker_credential cfgW envW).2.1 rfl,
   (C6_reranker_credential cfgW envW).2.2 embW tsW false ["vectorstore"]
     retrW ["vectorstore"] [Event.loadLocalEvt "vectorstore"] rfl⟩

/-- C7: ask on an orchestrator whose setup has not completed raises
NotInitializedError, and the outcome is the same for every oracle record -
no retrieval and no LLM invocation is attempted. -/
theorem C7_ask_before_setup (self : RAGOrchestrator) (o : Oracles)
    (store : Store) (question session_id : String)
    (h : self.rag_chain = none) :
    RAGOrchestrator.ask self o store question session_id
      = Except.error RagError.NotInitializedError
    ∧ (∀ o2 : Oracles, RAGOrchestrator.ask self o2 store question session_id
        = Except.error RagError.NotInitializedError) := by
  unfold RAGOrchestrator.ask
  rw [h]
  exact ⟨rfl, fun _ => rfl⟩

/-- An orchestrator that was never set up. -/
def orchNone : RAGOrchestrator := ⟨cfgW, none⟩

/-- Witness for C7 at a concrete orchestrator and question. -/
theorem C7_ask_before_setup_witness :
    RAGOrchestrator.ask orchNone oW [] "question" "session"
      = Except.error RagError.NotInitializedError :=
  (C7_ask_before_setup orchNone oW [] "question" "session" rfl).1

/-- C10: with conversation memory disabled, ask ignores the session id
(any two session ids give the same result) and a successful call returns
the conversation store unchanged. -/
theorem C10_memory_disabled_frame (self : RAGOrchestrator) (o : Oracles)
    (store : Store) (question sid1 sid2 : String)
    (h : self.config.memory.enable = false) :
    RAGOrchestrator.ask self o store question sid1
      = RAGOrchestrator.ask self o store question sid2
    ∧ (∀ ans docs store1,
        RAGOrchestrator.ask self o store question sid1
          = Except.ok (ans, docs, store1) → store1 = store) := by
  have hne : ¬(self.config.memory.enable = true) := by simp [h]
  unfold RAGOrchestrator.ask
  cases hc : self.rag_chain with
  | none =>
      refine ⟨rfl, fun ans docs store1 hh => ?_⟩
      exact absurd hh (by simp)
  | some chain =>
    simp only [if_neg hne]
    cases chain with
    | conversational llm tmpl retr =>
        refine ⟨by trivial, fun ans docs store1 hh => ?_⟩
        exact absurd hh (by simp)
    | standard llm tmpl retr =>
        refine ⟨by trivial, fun ans docs store1 hh => ?_⟩
        have hh2 : (match standard_chain_invoke o llm retr tmpl question with
            | Except.ok out => Except.ok (out.output, out.source_documents, store)
            | Except.error _ => Except.error RagError.PipelineExecutionError)
            = Except.ok (ans, docs, store1) := hh
        cases hs : standard_chain_invoke o llm retr tmpl question with
        | error e =>
            rw [hs] at hh2
            exact absurd hh2 (by simp)
        | ok out =>
            rw [hs] at hh2
            simp only [Except.ok.injEq, Prod.mk.injEq] at hh2
            exact hh2.2.2.symm

/-- An orchestrator set up in stateless mode (memory disabled). -/
def orchStd : RAGOrchestrator :=
  ⟨cfgW, some (RagChain.standard llmW "TEMPLATE" retrW)⟩

/-- A sample non-empty conversation store. -/
def storeW : Store := [("other", [ChatMessage.human "hello"])]

/-- Witness for C10: two different session ids give the same result and the
store comes back unchanged. -/
theorem C10_memory_disabled_frame_witness :
    RAGOrchestrator.ask orchStd oW storeW "q" "sessionA"
      = RAGOrchestrator.ask orchStd oW storeW "q" "sessionB"
    ∧ storeW = storeW :=
  ⟨(C10_memory_disabled_frame orchStd oW storeW "q" "sessionA" "sessionB" rfl).1,
   (C10_memory_disabled_frame orchStd oW storeW "q" "sessionA" "sessionB" rfl).2
     "answer" [docA] storeW rfl⟩

/-- Creating an empty history entry for a session id changes no session's
observable history. -/
theorem histOf_append_empty (store : Store) (sid0 sid : String) :
    histOf (store ++ [(sid0, [])]) sid = histOf store sid := by
  induction store with
  | nil =>
      unfold histOf store_lookup
      by_cases h : sid0 == sid <;> simp [store_lookup, h]
  | cons kv rest ih =>
      obtain ⟨k, hmsgs⟩ := kv
      unfold histOf at ih ⊢
      by_cases h : k == sid <;> simp [store_lookup, h, ih]

/-- C3: a conversational turn that fails in retrieval or in the LLM call
commits no history update: every session's observable history after the
failed turn equals its history before it. -/
theorem C3_failed_turn_preserves_history (o : Oracles) (llm : LLM)
    (retriever : Retriever) (tmpl : String) (store : Store)
    (session_id question : String) (e : String) (store1 : Store)
    (h : with_message_history_invoke o llm retriever tmpl store session_id
          question = (store1, Except.error e)) :
    ∀ sid : String, histOf store1 sid = histOf store sid := by
  intro sid
  cases hg : store_lookup store session_id with
  | some hist =>
      have h2 : ((match conversational_chain_invoke o llm retriever tmpl
            ⟨question, hist⟩ with
          | Except.error e2 => (store, Except.error e2)
          | Except.ok out =>
              (store_update store session_id
                (hist ++ [ChatMessage.human question, ChatMessage.ai out.output]),
               Except.ok out)) : Store × Except String ChainOutput)
          = (store1, Except.error e) := by
        have hgs : get_session_history store session_id = (store, hist) := by
          unfold get_session_history
          rw [hg]
        unfold with_message_history_invoke at h
        rw [hgs] at h
        exact h
      cases hc : conversational_chain_invoke o llm retriever tmpl
          ⟨question, hist⟩ with
      | error e2 =>
          rw [hc] at h2
          simp only [Prod.mk.injEq] at h2
          rw [← h2.1]
      | ok out =>
          rw [hc] at h2
          simp only [Prod.mk.injEq] at h2
          exact absurd h2.2 (by simp)
  | none =>
      have h2 : ((match conversational_chain_invoke o llm retriever tmpl
            ⟨question, []⟩ with
          | Except.error e2 => (store ++ [(session_id, [])], Except.error e2)
          | Except.ok out =>
              (store_update (store ++ [(session_id, [])]) session_id
                ([] ++ [ChatMessage.human question, ChatMessage.ai out.output]),
               Except.ok out)) : Store × Except String ChainOutput)
          = (store1, Except.error e) := by
        have hgs : get_session_history store session_id
            = (store ++ [(session_id, [])], []) := by
          unfold get_session_history
          rw [hg]
        unfold with_message_history_invoke at h
        rw [hgs] at h
        exact h
      cases hc : conversational_chain_invoke o llm retriever tmpl
          ⟨question, []⟩ with
      | error e2 =>
          rw [hc] at h2
          simp only [Prod.mk.injEq] at h2
          rw [← h2.1]
          exact histOf_append_empty store session_id sid
      | ok out =>
          rw [hc] at h2
          simp only [Prod.mk.injEq] at h2
          exact absurd h2.2 (by simp)

/-- Witness for C3: a failing retriever on a fresh session leaves the (still
empty) observable history unchanged. -/
theorem C3_failed_turn_preserves_history_witness :
    histOf [("session", [])] "session" = histOf ([] : Store) "session" :=
  C3_failed_turn_preserves_history oFail llmW retrW "TEMPLATE" [] "session"
    "question" "retriever down" [("session", [])] rfl "session"

/-- C4: conversational retrieval depends only on the raw question: two chain
inputs with the same question produce the identical retriever invocation,
and two successful chain runs on them return the same source documents. -/
theorem C4_retrieval_ignores_history (o : Oracles) (llm : LLM)
    (retriever : Retriever) (tmpl : String) (x1 x2 : ChainInput)
    (hq : x1.question = x2.question) :
    conversational_retrieve o retriever x1
      = conversational_retrieve o retriever x2
    ∧ (∀ out1 out2,
        conversational_chain_invoke o llm retriever tmpl x1 = Except.ok out1 →
        conversational_chain_invoke o llm retriever tmpl x2 = Except.ok out2 →
        out1.source_documents = out2.source_documents) := by
  have hr : conversational_retrieve o retriever x1
      = conversational_retrieve o retriever x2 := by
    unfold conversational_retrieve
    rw [hq]
  refine ⟨hr, fun out1 out2 h1 h2 => ?_⟩
  unfold conversational_chain_invoke at h1 h2
  rw [hr] at h1
  cases hres : conversational_retrieve o retriever x2 with
  | error e =>
      rw [hres] at h1
      exact absurd h1 (by simp)
  | ok docs =>
      rw [hres] at h1 h2
      have h1b : ((match o.llm llm (ChatMessage.system
              (o.fillSystem tmpl (format_docs docs))
            :: (x1.chat_history ++ [ChatMessage.human x1.question])) with
          | Except.error e => Except.error e
          | Except.ok ans =>
              Except.ok (ChainOutput.mk x1.question docs (format_docs docs) ans))
            : Except String ChainOutput)
          = Except.ok out1 := h1
      have h2b : ((match o.llm llm (ChatMessage.system
              (o.fillSystem tmpl (format_docs docs))
            :: (x2.chat_history ++ [ChatMessage.human x2.question])) with
          | Except.error e => Except.error e
          | Except.ok ans =>
              Except.ok (ChainOutput.mk x2.question docs (format_docs docs) ans))
            : Except String ChainOutput)
          = Except.ok out2 := h2
      cases hl1 : o.llm llm (ChatMessage.system (o.fillSystem tmpl (format_docs docs))
          :: (x1.chat_history ++ [ChatMessage.human x1.question])) with
      | error e =>
          rw [hl1] at h1b
          exact absurd h1b (by simp)
      | ok ans1 =>
          cases hl2 : o.llm llm (ChatMessage.system (o.fillSystem tmpl (format_docs docs))
              :: (x2.chat_history ++ [ChatMessage.human x2.question])) with
          | error e =>
              rw [hl2] at h2b
              exact absurd h2b (by simp)
          | ok ans2 =>
              rw [hl1] at h1b
              rw [hl2] at h2b
              simp only [Except.ok.injEq] at h1b h2b
              rw [← h1b, ← h2b]

/-- Witness for C4: same question, different histories, identical retrieval
and identical source documents. -/
theorem C4_retrieval_ignores_history_witness :
    conversational_retrieve oW retrW ⟨"q", []⟩
      = conversational_retrieve oW retrW ⟨"q", [ChatMessage.human "prior"]⟩
    ∧ (ChainOutput.mk "q" [docA] "alpha text" "answer").source_documents
        = (ChainOutput.mk "q" [docA] "alpha text" "answer").source_documents :=
  ⟨(C4_retrieval_ignores_history oW llmW retrW "TEMPLATE" ⟨"q", []⟩
      ⟨"q", [ChatMessage.human "prior"]⟩ rfl).1,
   (C4_retrieval_ignores_history oW llmW retrW "TEMPLATE" ⟨"q", []⟩
      ⟨"q", [ChatMessage.human "prior"]⟩ rfl).2
     (ChainOutput.mk "q" [docA] "alpha text" "answer")
     (ChainOutput.mk "q" [docA] "alpha text" "answer") rfl rfl⟩

/-- After `rmtree`, the deleted path no longer exists. -/
theorem os_path_exists_rmtree (p : String) (fs : FS) :
    os_path_exists (rmtree p fs) p = false := by
  simp [os_path_exists, rmtree]

/-- After `save_local`, the saved path exists. -/
theorem os_path_exists_save_local (p : String) (fs : FS) :
    os_path_exists (save_local p fs) p = true := by
  simp [os_path_exists, save_local, List.contains]

/-- Build-or-load postcondition of `build_retriever` (the property claimed
of it): when `force_recreate` is set and the store path exists, deletion is
the first effect and afterwards the path is gone; when the path does not
exist (after the optional deletion) the run loads documents, splits,
embeds, builds and persists at the path; otherwise it loads the persisted
index directly, with no document loading and no splitting, and path
existence alone decides between the two. -/
def C1_post (config : AppConfig) (embeddings : Embeddings)
    (reranker : Option Reranker) (force_recreate : Bool) (env : Env)
    (fs : FS) (r : Retriever) (fs1 : FS) (evs : List Event) : Prop :=
  ((force_recreate && os_path_exists fs config.vector_store.path) = true →
    evs.head? = some (Event.rmtreeEvt config.vector_store.path)
    ∧ os_path_exists
        (if force_recreate && os_path_exists fs config.vector_store.path
          then rmtree config.vector_store.path fs else fs)
        config.vector_store.path = false)
  ∧ (os_path_exists
        (if force_recreate && os_path_exists fs config.vector_store.path
          then rmtree config.vector_store.path fs else fs)
        config.vector_store.path = false →
      evs = (if force_recreate && os_path_exists fs config.vector_store.path
          then [Event.rmtreeEvt config.vector_store.path] else [])
        ++ [Event.loadDocumentsEvt, Event.splitDocumentsEvt,
            Event.buildIndexEvt, Event.saveLocalEvt config.vector_store.path]
      ∧ os_path_exists fs1 config.vector_store.path = true
      ∧ ∃ docs, load_documents config env
          (if force_recreate && os_path_exists fs config.vector_store.path
            then rmtree config.vector_store.path fs else fs)
          = Except.ok docs)
  ∧ (os_path_exists
        (if force_recreate && os_path_exists fs config.vector_store.path
          then rmtree config.vector_store.path fs else fs)
        config.vector_store.path = true →
      evs = (if force_recreate && os_path_exists fs config.vector_store.path
          then [Event.rmtreeEvt config.vector_store.path] else [])
        ++ [Event.loadLocalEvt config.vector_store.path]
      ∧ Event.loadDocumentsEvt ∉ evs
      ∧ Event.splitDocumentsEvt ∉ evs
      ∧ fs1 = (if force_recreate && os_path_exists fs config.vector_store.path
          then rmtree config.vector_store.path fs else fs)
      ∧ r = apply_reranker reranker
          (Retriever.vector
            (VectorStore.loadedLocal config.vector_store.path embeddings)))

/-- C1: every successful run of build_retriever satisfies the build-or-load
policy: optional deletion first when forced and present, then a full
load-split-embed-build-persist when the path is absent, or a direct load
with document loading and splitting skipped when it is present - path
existence being the sole signal. -/
theorem C1_build_or_load (config : AppConfig) (embeddings : Embeddings)
    (ts : TextSplitter) (reranker : Option Reranker) (force_recreate : Bool)
    (env : Env) (fs : FS) (r : Retriever) (fs1 : FS) (evs : List Event)
    (h : build_retriever config embeddings ts reranker force_recreate env fs
          = Except.ok (r, fs1, evs)) :
    C1_post config embeddings reranker force_recreate env fs r fs1 evs := by
  unfold C1_post
  simp only [build_retriever] at h
  by_cases hdel : (force_recreate && os_path_exists fs config.vector_store.path) = true
  · rw [if_pos hdel] at h
    rw [if_pos (show (!os_path_exists (rmtree config.vector_store.path fs)
        config.vector_store.path) = true by
      simp [os_path_exists_rmtree])] at h
    cases hld : load_documents config env (rmtree config.vector_store.path fs) with
    | error e =>
        rw [hld] at h
        exact absurd h (by simp)
    | ok docs =>
        rw [hld] at h
        simp only [Except.ok.injEq, Prod.mk.injEq] at h
        obtain ⟨hr, hfs, hev⟩ := h
        rw [if_pos hdel] at hev
        refine ⟨fun _ => ⟨?_, ?_⟩, fun _ => ⟨?_, ?_, ?_⟩, fun hx => ?_⟩
        · rw [← hev]
          rfl
        · rw [if_pos hdel]
          exact os_path_exists_rmtree _ _
        · rw [if_pos hdel]
          exact hev.symm
        · rw [← hfs]
          exact os_path_exists_save_local _ _
        · rw [if_pos hdel]
          exact ⟨docs, hld⟩
        · rw [if_pos hdel] at hx
          rw [os_path_exists_rmtree config.vector_store.path fs] at hx
          exact absurd hx (by simp)
  · rw [if_neg hdel] at h
    by_cases hex : os_path_exists fs config.vector_store.path = true
    · rw [if_neg (show ¬((!os_path_exists fs config.vector_store.path) = true) by
        simp [hex])] at h
      simp only [Except.ok.injEq, Prod.mk.injEq] at h
      obtain ⟨hr, hfs, hev⟩ := h
      rw [if_neg hdel] at hev
      refine ⟨fun hcontra => absurd hcontra hdel, fun hne => ?_, fun _ => ?_⟩
      · rw [if_neg hdel, hex] at hne
        exact absurd hne (by simp)
      · refine ⟨?_, ?_, ?_, ?_, ?_⟩
        · rw [if_neg hdel]
          exact hev.symm
        · rw [← hev]
          simp
        · rw [← hev]
          simp
        · rw [if_neg hdel]
          exact hfs.symm
        · exact hr.symm
    · have hexb : os_path_exists fs config.vector_store.path = false := by
        revert hex
        cases os_path_exists fs config.vector_store.path <;> simp
      rw [if_pos (show (!os_path_exists fs config.vector_store.path) = true by
        simp [hexb])] at h
      cases hld : load_documents config env fs with
      | error e =>
          rw [hld] at h
          exact absurd h (by simp)
      | ok docs =>
          rw [hld] at h
          simp only [Except.ok.injEq, Prod.mk.injEq] at h
          obtain ⟨hr, hfs, hev⟩ := h
          rw [if_neg hdel] at hev
          refine ⟨fun hcontra => absurd hcontra hdel, fun _ => ⟨?_, ?_, ?_⟩,
            fun hx => ?_⟩
          · rw [if_neg hdel]
            exact hev.symm
          · rw [← hfs]
            exact os_path_exists_save_local _ _
          · rw [if_neg hdel]
            exact ⟨docs, hld⟩
          · rw [if_neg hdel, hexb] at hx
            exact absurd hx (by simp)

/-- Witness for C1: a forced rebuild over an existing store deletes it and
rebuilds from the loaded documents. -/
theorem C1_build_or_load_witness :
    C1_post cfgW embW none true envW ["vectorstore", "docs"]
      (Retriever.vector (VectorStore.fromDocuments [docA, docB] embW))
      ["vectorstore", "docs"]
      [Event.rmtreeEvt "vectorstore", Event.loadDocumentsEvt,
        Event.splitDocumentsEvt, Event.buildIndexEvt,
        Event.saveLocalEvt "vectorstore"] :=
  C1_build_or_load cfgW embW tsW none true envW ["vectorstore", "docs"]
    (Retriever.vector (VectorStore.fromDocuments [docA, docB] embW))
    ["vectorstore", "docs"]
    [Event.rmtreeEvt "vectorstore", Event.loadDocumentsEvt,
      Event.splitDocumentsEvt, Event.buildIndexEvt,
      Event.saveLocalEvt "vectorstore"] rfl

/-- C2 counterexample: with hybrid search enabled in the configuration but
the persisted index present at the path, build_retriever returns the plain
vector retriever, not the hybrid ensemble. -/
theorem C2_hybrid_counterexample :
    cfgHybrid.retriever.enable_hybrid_search = true
    ∧ build_retriever cfgHybrid embW tsW none false envW ["vectorstore"]
        = Except.ok
            (Retriever.vector (VectorStore.loadedLocal "vectorstore" embW),
             ["vectorstore"], [Event.loadLocalEvt "vectorstore"])
    ∧ (Retriever.vector (VectorStore.loadedLocal "vectorstore" embW)).isEnsemble
        = false :=
  ⟨rfl, rfl, rfl⟩

/-- C2 (amended): the hybrid ensemble retriever is produced exactly when
hybrid search is enabled AND the index is freshly built; when the persisted
index is loaded the vector retriever is used directly regardless of the
flag, and with the flag off the vector retriever is used in both branches. -/
theorem C2_hybrid_only_when_freshly_built (config : AppConfig)
    (embeddings : Embeddings) (ts : TextSplitter) (reranker : Option Reranker)
    (force_recreate : Bool) (env : Env) (fs : FS) (r : Retriever) (fs1 : FS)
    (evs : List Event)
    (h : build_retriever config embeddings ts reranker force_recreate env fs
          = Except.ok (r, fs1, evs)) :
    (∀ docs : List Document,
      os_path_exists
          (if force_recreate && os_path_exists fs config.vector_store.path
            then rmtree config.vector_store.path fs else fs)
          config.vector_store.path = false →
      load_documents config env
          (if force_recreate && os_path_exists fs config.vector_store.path
            then rmtree config.vector_store.path fs else fs)
          = Except.ok docs →
      (config.retriever.enable_hybrid_search = true →
        r = apply_reranker reranker
          (Retriever.ensemble
            [Retriever.vector (VectorStore.fromDocuments
                (env.splitDocs ts docs) embeddings),
             Retriever.bm25 (env.splitDocs ts docs)]
            config.retriever.hybrid_search_weights))
      ∧ (config.retriever.enable_hybrid_search = false →
          r = apply_reranker reranker
            (Retriever.vector (VectorStore.fromDocuments
                (env.splitDocs ts docs) embeddings))))
    ∧ (os_path_exists
          (if force_recreate && os_path_exists fs config.vector_store.path
            then rmtree config.vector_store.path fs else fs)
          config.vector_store.path = true →
        r = apply_reranker reranker
          (Retriever.vector
            (VectorStore.loadedLocal config.vector_store.path embeddings))) := by
  simp only [build_retriever] at h
  by_cases hdel : (force_recreate && os_path_exists fs config.vector_store.path) = true
  · rw [if_pos hdel] at h
    rw [if_pos (show (!os_path_exists (rmtree config.vector_store.path fs)
        config.vector_store.path) = true by
      simp [os_path_exists_rmtree])] at h
    cases hld : load_documents config env (rmtree config.vector_store.path fs) with
    | error e =>
        rw [hld] at h
        exact absurd h (by simp)
    | ok docs0 =>
        rw [hld] at h
        simp only [Except.ok.injEq, Prod.mk.injEq] at h
        obtain ⟨hr, -, -⟩ := h
        refine ⟨fun docs hne hld2 => ?_, fun hx => ?_⟩
        · rw [if_pos hdel] at hld2
          rw [hld] at hld2
          cases hld2
          constructor
          · intro hhyb
            rw [← hr, if_pos hhyb]
          · intro hhyb
            rw [← hr, if_neg (by simp [hhyb])]
        · rw [if_pos hdel] at hx
          rw [os_path_exists_rmtree config.vector_store.path fs] at hx
          exact absurd hx (by simp)
  · rw [if_neg hdel] at h
    by_cases hex : os_path_exists fs config.vector_store.path = true
    · rw [if_neg (show ¬((!os_path_exists fs config.vector_store.path) = true) by
        simp [hex])] at h
      simp only [Except.ok.injEq, Prod.mk.injEq] at h
      obtain ⟨hr, -, -⟩ := h
      refine ⟨fun docs hne hld2 => ?_, fun _ => hr.symm⟩
      rw [if_neg hdel, hex] at hne
      exact absurd hne (by simp)
    · have hexb : os_path_exists fs config.vector_store.path = false := by
        revert hex
        cases os_path_exists fs config.vector_store.path <;> simp
      rw [if_pos (show (!os_path_exists fs config.vector_store.path) = true by
        simp [hexb])] at h
      cases hld : load_documents config env fs with
      | error e =>
          rw [hld] at h
          exact absurd h (by simp)
      | ok docs0 =>
          rw [hld] at h
          simp only [Except.ok.injEq, Prod.mk.injEq] at h
          obtain ⟨hr, -, -⟩ := h
          refine ⟨fun docs hne hld2 => ?_, fun hx => ?_⟩
          · rw [if_neg hdel] at hld2
            rw [hld] at hld2
            cases hld2
            constructor
            · intro hhyb
              rw [← hr, if_pos hhyb]
            · intro hhyb
              rw [← hr, if_neg (by simp [hhyb])]
          · rw [if_neg hdel, hexb] at hx
            exact absurd hx (by simp)

/-- Witness for the amended C2: a fresh build with hybrid search enabled
yields exactly the ensemble of the vector and keyword retrievers. -/
theorem C2_hybrid_only_when_freshly_built_witness :
    Retriever.ensemble
        [Retriever.vector (VectorStore.fromDocuments [docA, docB] embW),
         Retriever.bm25 [docA, docB]] [1, 0]
      = apply_reranker none
          (Retriever.ensemble
            [Retriever.vector (VectorStore.fromDocuments
                (envW.splitDocs tsW [docA, docB]) embW),
             Retriever.bm25 (envW.splitDocs tsW [docA, docB])]
            cfgHybrid.retriever.hybrid_search_weights) :=
  ((C2_hybrid_only_when_freshly_built cfgHybrid embW tsW none false envW
      ["docs"]
      (Retriever.ensemble
        [Retriever.vector (VectorStore.fromDocuments [docA, docB] embW),
         Retriever.bm25 [docA, docB]] [1, 0])
      ["vectorstore", "docs"]
      [Event.loadDocumentsEvt, Event.splitDocumentsEvt, Event.buildIndexEvt,
        Event.saveLocalEvt "vectorstore"] rfl).1
    [docA, docB] rfl rfl).1 rfl
